import Mathlib

/-!
# Verification of the GREIN proxy ingestion pipeline and serving layer

Shallow embedding of `src/grein_proxy/update_database.py` (ingestion
pipeline) and `src/grein_proxy/flask_app.py` (read-only serving layer).

Modelling conventions:
* SQLite rows of table `dataset` are values of `DBRow`; the database is a
  `List DBRow` in insertion order.  An `INSERT` into a table with a
  `PRIMARY KEY` raises `sqlite3.IntegrityError` on a duplicate key; this is
  modelled by `insertRow` returning `none` on a duplicate accession.
* Serialized blobs (`pickle.dumps` output) are opaque byte strings
  (`Blob := List Nat`); the pipeline never inspects their contents, so the
  payloads fetched from GREIN are carried as already-serialized blobs and
  `pickle` round-tripping is the identity on them.
* The outcome of one call of `load_grein_dataset_with_timeout` on the k-th
  attempt for an accession is a `FetchOutcome`; exception classes of the
  Python code map to its constructors as documented there.
* The `ProcessPoolExecutor` of `load_datasets` yields completed futures via
  `as_completed` in completion order; the embedding receives the work items
  in that completion order and processes them sequentially, exactly as the
  consuming loop does (the loop body itself is sequential: one commit at a
  time).
-/

namespace GreinProxy

/-- Opaque serialized payload (the output of `pickle.dumps`). -/
abbrev Blob := List Nat

/-- The `description` dict returned by `grein_loader.load_dataset`;
`load_datasets` reads its `Title` and `Species` keys. -/
structure Description where
  «Title» : String
  «Species» : String
deriving DecidableEq, Repr

/-- The `(description, metadata, raw_counts)` triple returned by
`grein_loader.load_dataset`; `metadata` and `raw_counts` are opaque payloads
that `load_datasets` serializes with `pickle.dumps`. -/
structure GreinData where
  description : Description
  metadata : Blob
  raw_counts : Blob
deriving DecidableEq, Repr

/-- One row of the SQLite table
`dataset(accession TEXT PRIMARY KEY, status INTEGER, title TEXT,
species TEXT, metadata BLOB, raw_counts BLOB, normalised_counts BLOB)`
created by `create_database`.  Columns other than the primary key are
nullable; `none` models SQL `NULL` (column not set by the insert). -/
structure DBRow where
  accession : String
  status : Nat
  title : Option String
  species : Option String
  metadata : Option Blob
  raw_counts : Option Blob
  normalised_counts : Option Blob
deriving DecidableEq, Repr

/-- `INSERT` of a row into the `dataset` table: the `PRIMARY KEY` constraint
on `accession` makes the insert raise `sqlite3.IntegrityError` (modelled as
`none`) when a row with the same accession already exists. -/
def insertRow (db : List DBRow) (row : DBRow) : Option (List DBRow) :=
  if db.any (fun r => r.accession = row.accession) then none
  else some (db ++ [row])

/-- Outcome of one `load_grein_dataset_with_timeout` call, i.e. of one
attempt of the `while True` loop in `load_single_dataset`:
* `success d` — the call returned the triple `d`;
* `permanentError` — it raised `requests.exceptions.HTTPError` or
  `grein_loader.exceptions.GreinLoaderException`;
* `transientError` — it raised `requests.exceptions.ConnectionError` or
  `concurrent.futures.TimeoutError`;
* `otherError` — it raised any exception outside those four classes. -/
inductive FetchOutcome where
  | success (d : GreinData)
  | permanentError
  | transientError
  | otherError
deriving DecidableEq, Repr

/-- An exception propagating out of `load_single_dataset` to the caller. -/
inductive PyError where
  | maxRetriesExceeded
  | unclassified
deriving DecidableEq, Repr

/-- What `load_single_dataset` hands to `future.result()` in
`load_datasets`: either a returned value (`some` triple on success, `none`
when the dataset is not available on GREIN) or a raised exception. -/
inductive SingleOutcome where
  | result (d : Option GreinData)
  | raised (e : PyError)
deriving DecidableEq, Repr

/-- The `while True` loop of `load_single_dataset`
(src/grein_proxy/update_database.py lines 125-150).  `fetch k` is the
outcome of the k-th call of `load_grein_dataset_with_timeout` (0-based,
`attempt` is the index of the current call); the source counts upwards with
`current_retry` starting at 0 and raises when, after `current_retry += 1`,
`current_retry >= max_retries` holds; the loop variable here is the
remaining budget `remaining = max_retries - current_retry`, so the raise
condition `max_retries <= current_retry + 1` is `remaining ≤ 1`.  Returns
the outcome handed to the caller, the number of fetch attempts performed,
and the list of `time.sleep` durations executed (one
`time.sleep(retry_delay)` before each re-attempt). -/
def load_single_loop (fetch : Nat → FetchOutcome) (retry_delay : Nat) :
    (remaining : Nat) → (attempt : Nat) → (sleeps : List Nat) →
      SingleOutcome × Nat × List Nat
  | remaining, attempt, sleeps =>
    match fetch attempt, remaining with
    | .success d, _ => (.result (some d), attempt + 1, sleeps)
    | .permanentError, _ => (.result none, attempt + 1, sleeps)
    | .otherError, _ => (.raised .unclassified, attempt + 1, sleeps)
    | .transientError, 0 => (.raised .maxRetriesExceeded, attempt + 1, sleeps)
    | .transientError, 1 => (.raised .maxRetriesExceeded, attempt + 1, sleeps)
    | .transientError, r + 2 =>
        load_single_loop fetch retry_delay (r + 1) (attempt + 1)
          (sleeps ++ [retry_delay])

/-- `load_single_dataset(geo_accession, retry_delay, timeout, max_retries)`:
starts the loop with `current_retry = 0` (remaining budget `max_retries`),
no attempts made and no sleeps performed.  The `timeout` parameter is
already folded into `fetch` (a timeout surfaces as
`FetchOutcome.transientError`). -/
def load_single_dataset (fetch : Nat → FetchOutcome) (retry_delay : Nat)
    (max_retries : Nat) : SingleOutcome × Nat × List Nat :=
  load_single_loop fetch retry_delay max_retries 0 []

/-- The row written by
`INSERT INTO dataset(accession, status) VALUES(?, 0)` for a dataset that is
not available on GREIN: only `accession` and `status` are set. -/
def unavailableRow (accession : String) : DBRow :=
  { accession := accession, status := 0, title := none, species := none,
    metadata := none, raw_counts := none, normalised_counts := none }

/-- The row written by `INSERT INTO dataset(accession, status, title,
species, metadata, raw_counts) VALUES(?, ?, ?, ?, ?, ?)` for a successfully
fetched dataset: status 1, title and species from the description, the
pickled metadata and raw counts; `normalised_counts` is not in the column
list. -/
def availableRow (accession : String) (d : GreinData) : DBRow :=
  { accession := accession, status := 1,
    title := some d.description.«Title»,
    species := some d.description.«Species»,
    metadata := some d.metadata, raw_counts := some d.raw_counts,
    normalised_counts := none }

/-- Body of the `for future in concurrent.futures.as_completed(...)` loop in
`load_datasets` (lines 179-206) for one completed work item: the whole body
is wrapped in `try: ... except Exception: _LOGGER.error(...)`, so a raised
`future.result()` exception, or an `sqlite3.IntegrityError` from a
duplicate-key insert, is logged and the loop continues with the database
unchanged. -/
def process_outcome (db : List DBRow) (accession : String)
    (outcome : SingleOutcome) : List DBRow :=
  match outcome with
  | .raised _ => db
  | .result none =>
      match insertRow db (unavailableRow accession) with
      | some db2 => db2
      | none => db
  | .result (some d) =>
      match insertRow db (availableRow accession d) with
      | some db2 => db2
      | none => db

/-- `load_datasets(geo_accessions, connection, retry_delay, timeout,
n_threads)`: every accession is fetched by `load_single_dataset` (invoked
with the worker pool), and each completed outcome is committed by
`process_outcome`; `geo_accessions` is given in completion order (with
`n_threads = 1` this is submission order). -/
def load_datasets (fetches : String → Nat → FetchOutcome)
    (retry_delay : Nat) (max_retries : Nat) (geo_accessions : List String)
    (db : List DBRow) : List DBRow :=
  geo_accessions.foldl
    (fun acc a =>
      process_outcome acc a (load_single_dataset (fetches a) retry_delay max_retries).1)
    db

/-- `get_loaded_datasets(connection)` (lines 86-105): the set of accession
numbers of all rows of the `dataset` table
(`SELECT accession FROM dataset`, collected into a Python `set`). -/
def get_loaded_datasets (db : List DBRow) : Finset String :=
  (db.map (fun r => r.accession)).toFinset

/-- The work list computed by `main` (line 246):
`datasets_to_load = list(grein_accessions - loaded_datasets)`,
the set difference of the remote catalog accessions and the accessions
already present in the database. -/
def datasets_to_load (grein_accessions : Finset String)
    (loaded_datasets : Finset String) : Finset String :=
  grein_accessions \ loaded_datasets

/-- The three counts `main` prints (lines 236, 243, 247):
`Datasets in database`, `Datasets in GREIN` and `Datasets to load`.  These
are the only counts the run reports; `load_datasets` afterwards only
advances the progress bar. -/
def main_reports (grein_accessions : Finset String)
    (loaded_datasets : Finset String) : List (String × Nat) :=
  [("Datasets in database", loaded_datasets.card),
   ("Datasets in GREIN", grein_accessions.card),
   ("Datasets to load",
     (datasets_to_load grein_accessions loaded_datasets).card)]

/-- The update step of `main` (lines 235-255) on an already-open database:
compute the loaded accessions and the work list, and run `load_datasets` on
it when it is non-empty (`if len(datasets_to_load) > 0`), otherwise print
`Database up to date` and leave the store untouched.
`list(grein_accessions - loaded_datasets)` enumerates the Python set in an
unspecified order; the embedding fixes that enumeration to the sorted
order (the pipeline's results are order-independent). -/
def main_update (grein_accessions : Finset String)
    (fetches : String → Nat → FetchOutcome) (retry_delay : Nat)
    (max_retries : Nat) (db : List DBRow) : List DBRow :=
  if 0 < (datasets_to_load grein_accessions (get_loaded_datasets db)).card then
    load_datasets fetches retry_delay max_retries
      ((datasets_to_load grein_accessions (get_loaded_datasets db)).sort (· ≤ ·))
      db
  else db

/-- How a whole run of `main` ends.  `completed` carries the final database
state; `aborted` models an uncaught exception propagating out of `main`,
which makes the process exit non-zero. -/
inductive RunOutcome where
  | completed (db : List DBRow)
  | aborted
deriving Repr

/-- A run of `main` (lines 227-257): `catalog` is the result of
`grein_loader.load_overview` — `none` when catalog enumeration raises (the
exception is not caught anywhere in `main`, so the run aborts); otherwise
the update step runs, and every per-item failure inside `load_datasets` is
caught by its blanket `except Exception` handler, so `main` completes and
the process exits 0. -/
def main_run (catalog : Option (Finset String))
    (fetches : String → Nat → FetchOutcome) (retry_delay : Nat)
    (max_retries : Nat) (db : List DBRow) : RunOutcome :=
  match catalog with
  | none => .aborted
  | some grein_accessions =>
      .completed (main_update grein_accessions fetches retry_delay max_retries db)

/-!
## Discrete-time model of `load_grein_dataset_with_timeout`

`load_grein_dataset_with_timeout` (lines 36-57) submits
`grein_loader.load_dataset` to a `ThreadPoolExecutor(max_workers=1)` inside
a `with` block and calls `future.result(timeout=timeout)`.

Wall-clock semantics of the constructs used (CPython `concurrent.futures`):
`future.result(timeout)` returns the value as soon as the worker finishes,
or raises `concurrent.futures.TimeoutError` once `timeout` seconds have
elapsed.  Leaving the `with` block — on return or on exception — invokes
`ThreadPoolExecutor.__exit__`, which calls `executor.shutdown(wait=True)`:
it joins the worker thread, i.e. blocks until the submitted call finishes.
-/

/-- Wall-clock time at which `load_grein_dataset_with_timeout` returns
control to its caller (by returning or by propagating an exception).
`callDuration` is the running time of `grein_loader.load_dataset`
(`none` if the call never returns).
* Worker finishes at `t ≤ timeout`: `future.result` returns at `t`,
  `shutdown(wait=True)` finds the worker done, the caller resumes at `t`.
* Worker finishes at `t > timeout`: `future.result` raises TimeoutError at
  `timeout`, but the `with`-exit blocks in `shutdown(wait=True)` until `t`;
  the exception reaches the caller only at `t`.
* Worker never finishes: TimeoutError is raised at `timeout`, but
  `shutdown(wait=True)` joins a thread that never terminates — control
  never returns to the caller (`none`). -/
def bounded_fetch_return_time (callDuration : Option Nat) (timeout : Nat) :
    Option Nat :=
  match callDuration with
  | some t => if t ≤ timeout then some t else some t
  | none => none

/-- Whether the call raises `concurrent.futures.TimeoutError` (line 55-57):
exactly when the worker has not completed within `timeout`. -/
def bounded_fetch_raises_timeout (callDuration : Option Nat)
    (timeout : Nat) : Bool :=
  match callDuration with
  | some t => timeout < t
  | none => true

/-!
## Serving layer (`src/grein_proxy/flask_app.py`)

Each route handler is a function of the database contents and the
`accession` URL segment.  `SELECT ... FROM dataset WHERE accession = ?`
is the filter of the row list by accession, preserving order.  Flask's
`abort(code, msg)` is `Resp.err code msg`; returning a value from a handler
is an HTTP 200 response, `Resp.ok`.
-/

/-- Result of one request: a 200 response carrying a body, or an
`abort(code, description)`. -/
inductive Resp (β : Type) where
  | ok (body : β)
  | err (code : Nat) (msg : String)
deriving DecidableEq, Repr

/-- The `status` field of the `/status` JSON body: the literal string
`"Unknown"` when no row exists, or the integer `status` column of the
unique row. -/
inductive StatusField where
  | unknown
  | fromRow (status : Nat)
deriving DecidableEq, Repr

/-- JSON body built by the `status` handler: `{"accession": accession}`
updated with `status`/`title`/`species` of the row when one exists. -/
structure StatusBody where
  accession : String
  status : StatusField
  title : Option String
  species : Option String
deriving DecidableEq, Repr

/-- `GET /<accession>/status` (flask_app.py lines 71-97).  Returns the JSON
object with HTTP 200; aborts 400 on a missing accession and 500 on
duplicate rows (`this should never happen`). -/
def status_handler (db : List DBRow) (accession : String) :
    Resp StatusBody :=
  if accession = "" then .err 400 "Missing required parameter accession"
  else
    match db.filter (fun r => r.accession = accession) with
    | [] => .ok { accession := accession, status := .unknown,
                  title := none, species := none }
    | [row] => .ok { accession := accession, status := .fromRow row.status,
                     title := row.title, species := row.species }
    | _ => .err 500 ("Duplicate entries for " ++ accession)

/-- `GET /<accession>/metadata.json` (lines 99-124).  On success the body
is the deserialized metadata column (`pickle.loads(metadata)`; the payload
is carried as the opaque blob).  The second component records whether
`pickle.loads` was invoked: it is the last step of the handler, executed
only on the 200 path. -/
def metadata_handler (db : List DBRow) (accession : String) :
    Resp (Option Blob) × Bool :=
  if accession = "" then (.err 400 "Missing required parameter accession", false)
  else
    match db.filter (fun r => r.accession = accession) with
    | [] => (.err 404 "Unknown identifier passed", false)
    | [row] =>
        if row.status ≠ 1 then
          (.err 500 "Database not available in GREIN", false)
        else (.ok row.metadata, true)
    | _ => (.err 500 ("Duplicate entries for " ++ accession), false)

/-- `GET /<accession>/raw_counts.tsv` (lines 126-156).  On success the
handler deserializes the raw-counts column (`pickle.loads`) and renders it
as TSV; the body carries the opaque blob (the TSV rendering by pandas is
outside the model).  The second component records whether `pickle.loads`
was invoked. -/
def raw_counts_handler (db : List DBRow) (accession : String) :
    Resp (Option Blob) × Bool :=
  if accession = "" then (.err 400 "Missing required parameter accession", false)
  else
    match db.filter (fun r => r.accession = accession) with
    | [] => (.err 404 "Unknown identifier passed", false)
    | [row] =>
        if row.status ≠ 1 then
          (.err 500 "Database not available in GREIN", false)
        else (.ok row.raw_counts, true)
    | _ => (.err 500 ("Duplicate entries for " ++ accession), false)

/-!
## Concrete fixtures used by witnesses and counterexamples
-/

/-- A concrete fetched dataset. -/
def dsetA : GreinData :=
  { description := { «Title» := "Study A", «Species» := "Human" },
    metadata := [1, 2], raw_counts := [3, 4] }

/-- A second concrete fetched dataset. -/
def dsetB : GreinData :=
  { description := { «Title» := "Study B", «Species» := "Mouse" },
    metadata := [5], raw_counts := [6] }

/-!
## Helper lemmas
-/

/-- When every attempt fails transiently, a loop entered with a positive
remaining budget `r + 1` performs exactly `r + 1` further attempts and `r`
further sleeps, then raises. -/
theorem load_single_loop_all_transient (fetch : Nat → FetchOutcome)
    (hf : ∀ n, fetch n = .transientError) (retry_delay : Nat) :
    ∀ (r attempt : Nat) (sleeps : List Nat),
      load_single_loop fetch retry_delay (r + 1) attempt sleeps =
        (.raised .maxRetriesExceeded, attempt + (r + 1),
          sleeps ++ List.replicate r retry_delay) := by
  intro r
  induction r with
  | zero =>
      intro attempt sleeps
      simp [load_single_loop, hf]
  | succ r ih =>
      intro attempt sleeps
      rw [load_single_loop.eq_def]
      simp only [hf]
      rw [ih (attempt + 1) (sleeps ++ [retry_delay])]
      refine Prod.ext ?_ (Prod.ext ?_ ?_)
      · rfl
      · simp
        omega
      · simp [List.replicate_succ, List.append_assoc]

/-- `process_outcome` leaves the database unchanged whenever the accession
is already present (duplicate-key `IntegrityError` swallowed by the blanket
handler) or the outcome is a raised exception. -/
theorem process_outcome_dup (db : List DBRow) (accession : String)
    (outcome : SingleOutcome) (hdup : accession ∈ get_loaded_datasets db) :
    process_outcome db accession outcome = db := by
  have hany : db.any (fun r => r.accession = accession) = true := by
    simp only [get_loaded_datasets, List.mem_toFinset, List.mem_map] at hdup
    rcases hdup with ⟨r, hr, hacc⟩
    simp only [List.any_eq_true, decide_eq_true_eq]
    exact ⟨r, hr, hacc⟩
  cases outcome with
  | raised e => rfl
  | result d =>
      cases d with
      | none => simp [process_outcome, insertRow, unavailableRow, hany]
      | some g => simp [process_outcome, insertRow, availableRow, hany]

/-- A fresh accession with a returned outcome (`some` data or `None`) is
appended to the database as the corresponding single-insert row. -/
theorem process_outcome_fresh (db : List DBRow) (accession : String)
    (d : Option GreinData) (hfresh : accession ∉ get_loaded_datasets db) :
    process_outcome db accession (.result d) =
      db ++ [match d with
             | none => unavailableRow accession
             | some g => availableRow accession g] := by
  have hany : db.any (fun r => r.accession = accession) = false := by
    simp only [get_loaded_datasets, List.mem_toFinset, List.mem_map,
      not_exists, not_and] at hfresh
    simp only [List.any_eq_false, decide_eq_true_eq]
    intro r hr
    exact fun h => hfresh r hr h
  cases d with
  | none => simp [process_outcome, insertRow, unavailableRow, hany]
  | some g => simp [process_outcome, insertRow, availableRow, hany]

/-- Unfolding one work item of `load_datasets`: the head outcome is
committed before the tail is processed. -/
theorem load_datasets_cons (fetches : String → Nat → FetchOutcome)
    (retry_delay max_retries : Nat) (a : String) (rest : List String)
    (db : List DBRow) :
    load_datasets fetches retry_delay max_retries (a :: rest) db =
      load_datasets fetches retry_delay max_retries rest
        (process_outcome db a
          (load_single_dataset (fetches a) retry_delay max_retries).1) := rfl

/-- `process_outcome` either leaves the database unchanged or appends one
freshly built row (a status-0 row or a status-1 row) for the processed
accession. -/
theorem process_outcome_cases (db : List DBRow) (accession : String)
    (outcome : SingleOutcome) :
    process_outcome db accession outcome = db ∨
      ∃ row, process_outcome db accession outcome = db ++ [row] ∧
        row.accession = accession ∧
        (row = unavailableRow accession ∨
          ∃ d, row = availableRow accession d) := by
  by_cases hmem : accession ∈ get_loaded_datasets db
  · exact .inl (process_outcome_dup db accession outcome hmem)
  · cases outcome with
    | raised e => exact .inl rfl
    | result d =>
        right
        refine ⟨match d with
                | none => unavailableRow accession
                | some g => availableRow accession g,
          process_outcome_fresh db accession d hmem, ?_, ?_⟩
        · cases d <;> rfl
        · cases d with
          | none => exact .inl rfl
          | some g => exact .inr ⟨g, rfl⟩

/-- The set of loaded accessions only grows when one outcome is
processed. -/
theorem loaded_mono_process (db : List DBRow) (accession : String)
    (outcome : SingleOutcome) :
    get_loaded_datasets db ⊆
      get_loaded_datasets (process_outcome db accession outcome) := by
  intro x hx
  rcases process_outcome_cases db accession outcome with h | ⟨row, h, _, _⟩ <;>
    rw [h]
  · exact hx
  · simp only [get_loaded_datasets, List.mem_toFinset, List.mem_map] at hx ⊢
    rcases hx with ⟨r, hr, hacc⟩
    exact ⟨r, List.mem_append_left _ hr, hacc⟩

/-- After a returned outcome (data or `None`) is processed, the accession
is loaded: either its row was just inserted, or the insert hit the primary
key because it was already loaded. -/
theorem loaded_after_result (db : List DBRow) (accession : String)
    (d : Option GreinData) :
    accession ∈
      get_loaded_datasets (process_outcome db accession (.result d)) := by
  by_cases h : accession ∈ get_loaded_datasets db
  · rw [process_outcome_dup db accession _ h]
    exact h
  · rw [process_outcome_fresh db accession d h]
    cases d <;>
      simp [get_loaded_datasets, unavailableRow, availableRow]

/-- The set of loaded accessions only grows across a whole
`load_datasets` run. -/
theorem loaded_mono_load_datasets (fetches : String → Nat → FetchOutcome)
    (retry_delay max_retries : Nat) :
    ∀ (l : List String) (db : List DBRow),
      get_loaded_datasets db ⊆
        get_loaded_datasets
          (load_datasets fetches retry_delay max_retries l db) := by
  intro l
  induction l with
  | nil => intro db; exact Finset.Subset.refl _
  | cons b t ih =>
      intro db
      rw [load_datasets_cons]
      exact (loaded_mono_process db b _).trans (ih _)

/-- If every work item's fetch ends in a returned value (success or
permanent failure), every item of the work list is loaded after the run. -/
theorem loaded_after_run (fetches : String → Nat → FetchOutcome)
    (retry_delay max_retries : Nat)
    (hrec : ∀ b, ∃ o,
      (load_single_dataset (fetches b) retry_delay max_retries).1 =
        .result o) :
    ∀ (l : List String) (db : List DBRow) (a : String), a ∈ l →
      a ∈ get_loaded_datasets
        (load_datasets fetches retry_delay max_retries l db) := by
  intro l
  induction l with
  | nil => intro db a ha; exact absurd ha (List.not_mem_nil a)
  | cons b t ih =>
      intro db a ha
      rw [load_datasets_cons]
      rcases List.mem_cons.mp ha with rfl | ha
      · apply loaded_mono_load_datasets
        obtain ⟨o, ho⟩ := hrec a
        rw [ho]
        exact loaded_after_result db a o
      · exact ih _ a ha

/-!
## Claim theorems
-/

/-- Claim C2 (code_bug evidence): when the remote call never returns
(`callDuration = none`), `load_grein_dataset_with_timeout` never returns
control to its caller — the `TimeoutError` is raised internally when the
timeout elapses, but the `with`-block exit joins the hung worker thread, so
the caller is blocked forever, not for at most `timeout + ε`; likewise a
call of duration `t > timeout` blocks the caller for the full `t`. -/
theorem timeout_blocks_caller_forever (timeout t : Nat) :
    bounded_fetch_return_time none timeout = none ∧
    bounded_fetch_raises_timeout none timeout = true ∧
    bounded_fetch_return_time (some t) timeout = some t :=
  ⟨rfl, rfl, by simp [bounded_fetch_return_time]⟩

/-- Claim C3: when every fetch attempt fails transiently, the retry loop
performs exactly `max_retries` fetch attempts, sleeps `retry_delay` seconds
between consecutive attempts (`max_retries - 1` sleeps), raises the
max-retries-exceeded exception, and the orchestrator writes no record for
the item (the store is unchanged). -/
theorem retry_limit_exhaustion (fetch : Nat → FetchOutcome)
    (retry_delay max_retries : Nat) (db : List DBRow) (accession : String)
    (hf : ∀ n, fetch n = .transientError) (hM : 1 ≤ max_retries) :
    load_single_dataset fetch retry_delay max_retries =
      (.raised .maxRetriesExceeded, max_retries,
        List.replicate (max_retries - 1) retry_delay) ∧
    process_outcome db accession
      (load_single_dataset fetch retry_delay max_retries).1 = db := by
  obtain ⟨r, rfl⟩ : ∃ r, max_retries = r + 1 := ⟨max_retries - 1, by omega⟩
  have h1 := load_single_loop_all_transient fetch hf retry_delay r 0 []
  rw [load_single_dataset]
  constructor
  · rw [h1]
    simp
  · rw [h1]
    rfl

/-- Closed instance of `retry_limit_exhaustion`: with `retry_delay = 30`
and `max_retries = 3` an always-transient source is attempted 3 times with
two 30-second sleeps, and the store is untouched. -/
theorem retry_limit_exhaustion_witness :
    load_single_dataset (fun _ => .transientError) 30 3 =
      (.raised .maxRetriesExceeded, 3, List.replicate 2 30) ∧
    process_outcome [unavailableRow "GSE2"] "GSE1"
      (load_single_dataset (fun _ => .transientError) 30 3).1 =
      [unavailableRow "GSE2"] :=
  retry_limit_exhaustion (fun _ => .transientError) 30 3
    [unavailableRow "GSE2"] "GSE1" (fun _ => rfl) (by norm_num)

/-- Claim C4: a fetch whose first attempt raises a permanent
(not-found/unavailable) error is attempted exactly once with no sleep, the
loop returns `None` (a value, not an exception), and the orchestrator
commits a status-0 (`Unavailable`) row for the accession. -/
theorem permanent_failure_one_attempt (fetch : Nat → FetchOutcome)
    (retry_delay max_retries : Nat) (db : List DBRow) (accession : String)
    (h0 : fetch 0 = .permanentError)
    (hfresh : accession ∉ get_loaded_datasets db) :
    load_single_dataset fetch retry_delay max_retries =
      (.result none, 1, []) ∧
    process_outcome db accession
        (load_single_dataset fetch retry_delay max_retries).1 =
      db ++ [unavailableRow accession] ∧
    (unavailableRow accession).status = 0 := by
  have h1 : load_single_dataset fetch retry_delay max_retries =
      (.result none, 1, []) := by
    rw [load_single_dataset, load_single_loop.eq_def]
    simp [h0]
  refine ⟨h1, ?_, rfl⟩
  rw [h1]
  exact process_outcome_fresh db accession none hfresh

/-- Closed instance of `permanent_failure_one_attempt` at a not-found
source, an empty store and accession `GSE1`. -/
theorem permanent_failure_one_attempt_witness :
    load_single_dataset (fun _ => .permanentError) 30 10 =
      (.result none, 1, []) ∧
    process_outcome [] "GSE1"
        (load_single_dataset (fun _ => .permanentError) 30 10).1 =
      [] ++ [unavailableRow "GSE1"] ∧
    (unavailableRow "GSE1").status = 0 :=
  permanent_failure_one_attempt (fun _ => .permanentError) 30 10 [] "GSE1"
    rfl (by decide)

/-- Claim C1 is false on the code: with a record for `GSE1` already in the
store and a work list `[GSE1, GSE2]` of successful fetches, the
duplicate-key `IntegrityError` on `GSE1` is caught by the blanket
`except Exception` handler of `load_datasets` and the run continues:
`GSE2` is still processed and committed, so the duplicate does not abort
the run. -/
theorem duplicate_key_counterexample :
    load_datasets (fun _ _ => .success dsetA) 30 10 ["GSE1", "GSE2"]
        [availableRow "GSE1" dsetA] =
      [availableRow "GSE1" dsetA, availableRow "GSE2" dsetA] ∧
    availableRow "GSE2" dsetA ∈
      load_datasets (fun _ _ => .success dsetA) 30 10 ["GSE1", "GSE2"]
        [availableRow "GSE1" dsetA] := by
  decide

/-- Claim C1 (amended): a duplicate-key insert raises
`sqlite3.IntegrityError`, which the orchestrator's blanket handler catches
and logs: the existing record is never overwritten and the duplicate item
is skipped, but the run is not aborted — the remaining work list is
processed exactly as if the duplicate item were absent. -/
theorem duplicate_key_swallowed (fetches : String → Nat → FetchOutcome)
    (retry_delay max_retries : Nat) (a : String) (rest : List String)
    (db : List DBRow) (hdup : a ∈ get_loaded_datasets db) :
    load_datasets fetches retry_delay max_retries (a :: rest) db =
      load_datasets fetches retry_delay max_retries rest db := by
  rw [load_datasets_cons, process_outcome_dup db a _ hdup]

/-- Closed instance of `duplicate_key_swallowed` at the store already
holding `GSE1` and work list `[GSE1, GSE2]`. -/
theorem duplicate_key_swallowed_witness :
    load_datasets (fun _ _ => .success dsetA) 30 10 ["GSE1", "GSE2"]
        [availableRow "GSE1" dsetA] =
      load_datasets (fun _ _ => .success dsetA) 30 10 ["GSE2"]
        [availableRow "GSE1" dsetA] :=
  duplicate_key_swallowed (fun _ _ => .success dsetA) 30 10 "GSE1" ["GSE2"]
    [availableRow "GSE1" dsetA] (by decide)

/-- Claim C5 is false on the code: an error outside the classified
exception classes does propagate out of `load_single_dataset` after a
single attempt, but it is not fatal to the run — `load_datasets` catches it
with the same blanket `except Exception`, logs, and continues: with
`GSE1` raising an unclassified error and `GSE2` succeeding, the run still
commits `GSE2`. -/
theorem unclassified_error_counterexample :
    load_single_dataset (fun _ => .otherError) 30 10 =
      (.raised .unclassified, 1, []) ∧
    load_datasets
        (fun a _ => if a = "GSE1" then .otherError else .success dsetB)
        30 10 ["GSE1", "GSE2"] [] =
      [availableRow "GSE2" dsetB] := by
  decide

/-- Claim C5 (amended): an unclassified fetch error is not retried — the
retry loop propagates it after exactly one attempt with no sleep — but it
is fatal only to that work item: the orchestrator catches it, writes no
record for the accession, and processes the remaining items exactly as if
the failing item were absent. -/
theorem unclassified_error_skips_item
    (fetches : String → Nat → FetchOutcome) (retry_delay max_retries : Nat)
    (a : String) (rest : List String) (db : List DBRow)
    (h0 : fetches a 0 = .otherError) :
    load_single_dataset (fetches a) retry_delay max_retries =
      (.raised .unclassified, 1, []) ∧
    load_datasets fetches retry_delay max_retries (a :: rest) db =
      load_datasets fetches retry_delay max_retries rest db := by
  have h1 : load_single_dataset (fetches a) retry_delay max_retries =
      (.raised .unclassified, 1, []) := by
    rw [load_single_dataset, load_single_loop.eq_def]
    simp [h0]
  refine ⟨h1, ?_⟩
  rw [load_datasets_cons, h1]
  rfl

/-- Closed instance of `unclassified_error_skips_item` at an
always-unclassified source and a singleton work list. -/
theorem unclassified_error_skips_item_witness :
    load_single_dataset ((fun _ _ => .otherError) "GSE1") 30 10 =
      (.raised .unclassified, 1, []) ∧
    load_datasets (fun _ _ => .otherError) 30 10 ["GSE1"] [] =
      load_datasets (fun _ _ => .otherError) 30 10 [] [] :=
  unclassified_error_skips_item (fun _ _ => .otherError) 30 10 "GSE1" [] []
    rfl

/-- The per-row invariant of the `dataset` table maintained by the
ingestion writes: a status-1 row has `title`, `species`, `metadata` and
`raw_counts` all set, a status-0 row has them all unset, and
`normalised_counts` is never set. -/
def rowInvariant (r : DBRow) : Prop :=
  (r.status = 1 →
    r.title.isSome ∧ r.species.isSome ∧ r.metadata.isSome ∧
      r.raw_counts.isSome) ∧
  (r.status = 0 →
    r.title = none ∧ r.species = none ∧ r.metadata = none ∧
      r.raw_counts = none) ∧
  r.normalised_counts = none

/-- Every row present after a `load_datasets` run was either already in
the store or was created by one of its two single-insert statements. -/
theorem mem_load_datasets_cases (fetches : String → Nat → FetchOutcome)
    (retry_delay max_retries : Nat) :
    ∀ (l : List String) (db : List DBRow) (r : DBRow),
      r ∈ load_datasets fetches retry_delay max_retries l db →
      r ∈ db ∨ ∃ a, r = unavailableRow a ∨ ∃ d, r = availableRow a d := by
  intro l
  induction l with
  | nil => intro db r h; exact .inl h
  | cons b t ih =>
      intro db r h
      rw [load_datasets_cons] at h
      rcases ih _ r h with h2 | h2
      · rcases process_outcome_cases db b
            ((load_single_dataset (fetches b) retry_delay max_retries).1)
          with hc | ⟨row, hc, _, hshape⟩
        · rw [hc] at h2
          exact .inl h2
        · rw [hc] at h2
          rcases List.mem_append.mp h2 with h3 | h3
          · exact .inl h3
          · right
            have hrow : r = row := by simpa using h3
            subst hrow
            exact ⟨b, hshape⟩
      · exact .inr h2

/-- Claim C6: every record the pipeline writes satisfies the status/column
coupling — status 1 implies `title`, `species`, `metadata`, `raw_counts`
are all set by the same single insert, status 0 implies all of them are
unset, and `normalised_counts` is set by no write. -/
theorem status_column_coupling (fetches : String → Nat → FetchOutcome)
    (retry_delay max_retries : Nat) (geo_accessions : List String)
    (db : List DBRow) (r : DBRow)
    (hr : r ∈ load_datasets fetches retry_delay max_retries geo_accessions db) :
    r ∈ db ∨ rowInvariant r := by
  rcases mem_load_datasets_cases fetches retry_delay max_retries
      geo_accessions db r hr with h | ⟨a, h | ⟨d, h⟩⟩
  · exact .inl h
  · subst h
    right
    simp [rowInvariant, unavailableRow]
  · subst h
    right
    simp [rowInvariant, availableRow]

/-- Closed instance of `status_column_coupling` at the row written for a
successful fetch of `GSE1` into an empty store. -/
theorem status_column_coupling_witness :
    availableRow "GSE1" dsetA ∈ ([] : List DBRow) ∨
      rowInvariant (availableRow "GSE1" dsetA) :=
  status_column_coupling (fun _ _ => .success dsetA) 30 10 ["GSE1"] []
    (availableRow "GSE1" dsetA) (by decide)

/-- A run on an up-to-date store (`remote − local` empty) takes the
`Database up to date` branch and leaves the store untouched. -/
theorem main_update_up_to_date (grein_accessions : Finset String)
    (fetches : String → Nat → FetchOutcome) (retry_delay max_retries : Nat)
    (db : List DBRow)
    (h : datasets_to_load grein_accessions (get_loaded_datasets db) = ∅) :
    main_update grein_accessions fetches retry_delay max_retries db = db := by
  simp [main_update, h]

/-- After a run in which every work item ends in a returned value, every
remote accession is present locally: the next diff is empty. -/
theorem work_list_empty_after_run (grein_accessions : Finset String)
    (fetches : String → Nat → FetchOutcome) (retry_delay max_retries : Nat)
    (db : List DBRow)
    (hrec : ∀ b, ∃ o,
      (load_single_dataset (fetches b) retry_delay max_retries).1 =
        .result o) :
    datasets_to_load grein_accessions
      (get_loaded_datasets
        (main_update grein_accessions fetches retry_delay max_retries db)) =
      ∅ := by
  by_cases hcard :
      0 < (datasets_to_load grein_accessions (get_loaded_datasets db)).card
  · have hmu : main_update grein_accessions fetches retry_delay max_retries db =
        load_datasets fetches retry_delay max_retries
          ((datasets_to_load grein_accessions
            (get_loaded_datasets db)).sort (· ≤ ·)) db := by
      simp [main_update, hcard]
    rw [hmu]
    rw [datasets_to_load, Finset.sdiff_eq_empty_iff_subset]
    intro a ha
    by_cases hmem : a ∈ get_loaded_datasets db
    · exact loaded_mono_load_datasets fetches retry_delay max_retries _ db hmem
    · apply loaded_after_run fetches retry_delay max_retries hrec
      rw [Finset.mem_sort]
      rw [datasets_to_load, Finset.mem_sdiff]
      exact ⟨ha, hmem⟩
  · have h0 : datasets_to_load grein_accessions (get_loaded_datasets db) = ∅ :=
      Finset.card_eq_zero.mp (by omega)
    rw [main_update_up_to_date grein_accessions fetches retry_delay
      max_retries db h0]
    exact h0

/-- Claim C7: the work list is exactly the set difference
`remote − local`, and when every first-run item is recorded (success or
permanent failure), a second run against the same remote state computes an
empty work list and leaves the store exactly as the first run left it. -/
theorem differ_set_difference_idempotent (grein_accessions : Finset String)
    (fetches : String → Nat → FetchOutcome) (retry_delay max_retries : Nat)
    (db : List DBRow) (a : String)
    (hrec : ∀ b, ∃ o,
      (load_single_dataset (fetches b) retry_delay max_retries).1 =
        .result o) :
    (a ∈ datasets_to_load grein_accessions (get_loaded_datasets db) ↔
      a ∈ grein_accessions ∧ a ∉ get_loaded_datasets db) ∧
    datasets_to_load grein_accessions
      (get_loaded_datasets
        (main_update grein_accessions fetches retry_delay max_retries db)) =
      ∅ ∧
    main_update grein_accessions fetches retry_delay max_retries
        (main_update grein_accessions fetches retry_delay max_retries db) =
      main_update grein_accessions fetches retry_delay max_retries db := by
  have hempty := work_list_empty_after_run grein_accessions fetches
    retry_delay max_retries db hrec
  exact ⟨Finset.mem_sdiff, hempty,
    main_update_up_to_date grein_accessions fetches retry_delay max_retries
      _ hempty⟩

/-- Closed instance of `differ_set_difference_idempotent`: a remote
catalog `{GSE1}`, an empty store and an always-successful source. -/
theorem differ_set_difference_idempotent_witness :
    ("GSE1" ∈ datasets_to_load {"GSE1"} (get_loaded_datasets []) ↔
      "GSE1" ∈ ({"GSE1"} : Finset String) ∧
        "GSE1" ∉ get_loaded_datasets []) ∧
    datasets_to_load {"GSE1"}
      (get_loaded_datasets
        (main_update {"GSE1"} (fun _ _ => .success dsetA) 30 10 [])) = ∅ ∧
    main_update {"GSE1"} (fun _ _ => .success dsetA) 30 10
        (main_update {"GSE1"} (fun _ _ => .success dsetA) 30 10 []) =
      main_update {"GSE1"} (fun _ _ => .success dsetA) 30 10 [] :=
  differ_set_difference_idempotent {"GSE1"} (fun _ _ => .success dsetA)
    30 10 [] "GSE1" (fun _ => ⟨some dsetA, rfl⟩)

/-- Remote catalog used by the C8 counterexample. -/
def greinTwo : Finset String := {"GSE1", "GSE3"}

/-- Remote source used by the C8 counterexample: `GSE3` is permanently
unavailable, the others succeed. -/
def fetchesMixed : String → Nat → FetchOutcome :=
  fun a _ => if a = "GSE3" then .permanentError else .success dsetA

/-- Claim C8 is false on the code: for a run over `{GSE1, GSE3}` from an
empty store in which 1 dataset becomes available and 1 becomes
unavailable, the only counts the run reports are the three pre-processing
counts (0 in database, 2 in GREIN, 2 to load); the outcome count 1 — the
number of newly available records, and also of newly unavailable ones —
appears nowhere in the report, so no final summary of {already present,
newly available, newly unavailable, fatally failed} is reported. -/
theorem summary_counts_counterexample :
    main_reports greinTwo (get_loaded_datasets []) =
      [("Datasets in database", 0), ("Datasets in GREIN", 2),
        ("Datasets to load", 2)] ∧
    ((main_update greinTwo fetchesMixed 30 10 []).filter
      (fun r => r.status = 1)).length = 1 ∧
    ((main_update greinTwo fetchesMixed 30 10 []).filter
      (fun r => r.status = 0)).length = 1 ∧
    (1 : Nat) ∉ (main_reports greinTwo (get_loaded_datasets [])).map
      Prod.snd := by
  have hsort : greinTwo.sort (· ≤ ·) = ["GSE1", "GSE3"] := by
    show Finset.sort (· ≤ ·) (insert "GSE1" {"GSE3"}) = _
    rw [Finset.sort_insert, Finset.sort_singleton]
    · intro b hb
      rw [Finset.mem_singleton] at hb
      subst hb
      rw [String.le_iff_toList_le]
      decide
    · decide
  have h1 : datasets_to_load greinTwo (get_loaded_datasets ([] : List DBRow)) =
      greinTwo := by
    simp [datasets_to_load, get_loaded_datasets]
  have hmu : main_update greinTwo fetchesMixed 30 10 [] =
      load_datasets fetchesMixed 30 10 ["GSE1", "GSE3"] [] := by
    simp only [main_update, h1, hsort]
    rw [if_pos]
    decide
  refine ⟨by decide, ?_, ?_, by decide⟩
  · rw [hmu]
    decide
  · rw [hmu]
    decide

/-- Claim C8 (amended): the run reports exactly the three pre-processing
counts — datasets already in the database, datasets in the remote catalog,
and datasets to load — and no per-outcome summary; the process ends
abnormally (non-zero exit) only when catalog enumeration raises a
run-level fatal error, and completes normally whatever the individual
work-item outcomes are. -/
theorem run_reports_and_exit_status (grein_accessions : Finset String)
    (fetches : String → Nat → FetchOutcome) (retry_delay max_retries : Nat)
    (db : List DBRow) :
    (main_reports grein_accessions (get_loaded_datasets db)).map Prod.fst =
      ["Datasets in database", "Datasets in GREIN", "Datasets to load"] ∧
    main_run (some grein_accessions) fetches retry_delay max_retries db =
      .completed
        (main_update grein_accessions fetches retry_delay max_retries db) ∧
    main_run none fetches retry_delay max_retries db = .aborted :=
  ⟨rfl, rfl, rfl⟩

/-- Claim C9: for a non-empty accession with no row in the store, the
`/status` endpoint answers HTTP 200 with a body carrying the accession and
status `Unknown`, while `/metadata.json` and `/raw_counts.tsv` abort with
HTTP 404. -/
theorem absent_accession_endpoints (db : List DBRow) (accession : String)
    (hne : accession ≠ "")
    (habs : db.filter (fun r => r.accession = accession) = []) :
    status_handler db accession =
      .ok { accession := accession, status := .unknown, title := none,
            species := none } ∧
    metadata_handler db accession =
      (.err 404 "Unknown identifier passed", false) ∧
    raw_counts_handler db accession =
      (.err 404 "Unknown identifier passed", false) := by
  refine ⟨?_, ?_, ?_⟩ <;>
    simp [status_handler, metadata_handler, raw_counts_handler, hne, habs]

/-- Closed instance of `absent_accession_endpoints` at accession `GSE1`
and a store holding only `GSE2`. -/
theorem absent_accession_endpoints_witness :
    status_handler [availableRow "GSE2" dsetA] "GSE1" =
      .ok { accession := "GSE1", status := .unknown, title := none,
            species := none } ∧
    metadata_handler [availableRow "GSE2" dsetA] "GSE1" =
      (.err 404 "Unknown identifier passed", false) ∧
    raw_counts_handler [availableRow "GSE2" dsetA] "GSE1" =
      (.err 404 "Unknown identifier passed", false) :=
  absent_accession_endpoints [availableRow "GSE2" dsetA] "GSE1"
    (by decide) (by decide)

/-- Claim C10: for an accession whose unique row has a status other than 1,
both data endpoints abort with HTTP 500 (not 404) and `pickle.loads` is
never invoked on the data columns. -/
theorem unavailable_status_data_endpoints (db : List DBRow)
    (accession : String) (row : DBRow) (hne : accession ≠ "")
    (hfind : db.filter (fun r => r.accession = accession) = [row])
    (hstat : row.status ≠ 1) :
    metadata_handler db accession =
      (.err 500 "Database not available in GREIN", false) ∧
    raw_counts_handler db accession =
      (.err 500 "Database not available in GREIN", false) := by
  constructor <;>
    simp [metadata_handler, raw_counts_handler, hne, hfind, hstat]

/-- Closed instance of `unavailable_status_data_endpoints` at the
status-0 row of `GSE1`. -/
theorem unavailable_status_data_endpoints_witness :
    metadata_handler [unavailableRow "GSE1"] "GSE1" =
      (.err 500 "Database not available in GREIN", false) ∧
    raw_counts_handler [unavailableRow "GSE1"] "GSE1" =
      (.err 500 "Database not available in GREIN", false) :=
  unavailable_status_data_endpoints [unavailableRow "GSE1"] "GSE1"
    (unavailableRow "GSE1") (by decide) (by decide) (by decide)

end GreinProxy
